import Mathlib

/-!
Verification development for the tidb-optimizer-calibration repository.

The Go sources are shallowly embedded: pure functions become Lean functions,
the database-facing shaping and execution code becomes explicit state passing
over an abstract table (a list of the values of the predicate column `b`)
together with a trace of the SQL statements issued.  Go `float64` selectivity
arithmetic is modelled by exact rational arithmetic (`ℚ`); the Go conversion
`int(x)` on a `float64` truncates toward zero, which is modelled by `truncQ`.
Randomness (`math/rand`) is modelled by an explicit stream `rng : ℕ → ℕ`.
Loops whose termination depends on data are given explicit fuel; running out
of fuel is the distinguished outcome `RunOut.diverged`, never a default value.
-/

namespace Calib

/-- Truncation of a rational toward zero: the semantics of Go's `int(x)`
conversion applied to a `float64` value `x`. -/
def truncQ (q : ℚ) : ℤ := if q < 0 then ⌈q⌉ else ⌊q⌋

/-- Embeds `GetNumRows` from `src/scenarios.go`:
`if sel < 1.0 { return int(float64(rows) * sel) }; return int(sel)`.
The `float64` product is modelled by the exact rational product and the
`int(...)` conversions by truncation toward zero. -/
def GetNumRows (rows : ℤ) (sel : ℚ) : ℤ :=
  if sel < 1 then truncQ ((rows : ℚ) * sel)
  else truncQ sel

/-- Embeds `formatRowCountName` from `src/scenarios.go`: Go `%d` formatting is
`Int.repr`, and Go integer division of the nonnegative operands involved is
ordinary integer division. -/
def formatRowCountName (count : ℤ) : String :=
  if count ≥ 1000000 then Int.repr (count / 1000000) ++ "M"
  else if count ≥ 1000 then Int.repr (count / 1000) ++ "K"
  else Int.repr count

/-- Embeds `formatRowCount` from `src/main.go` (same body as
`formatRowCountName` in `src/scenarios.go`). -/
def formatRowCount (count : ℤ) : String :=
  if count ≥ 1000000 then Int.repr (count / 1000000) ++ "M"
  else if count ≥ 1000 then Int.repr (count / 1000) ++ "K"
  else Int.repr count

/-- Embeds `formatSelectivityName` from `src/scenarios.go`:
`fmt.Sprintf("%d", GetNumRows(r, v))`. -/
def formatSelectivityName (r : ℤ) (v : ℚ) : String :=
  Int.repr (GetNumRows r v)

/-- Embeds the `TestScenario` struct from `src/scenarios.go`. -/
structure TestScenario where
  ID : String
  Variant : String
  Name : String
  Query : String
  TableName : String
  RowCount : ℤ
  ExplainOnly : Bool
deriving DecidableEq

/-- The scenario ID built in `GetTestScenariosWithRowCountsAndSelectivities`
(`src/scenarios.go`): `fmt.Sprintf("index_%s_%s", tableSizeName,
formatSelectivityName(rowCount, sel))`. -/
def scenarioID (rowCount : ℤ) (sel : ℚ) : String :=
  "index_" ++ formatRowCountName rowCount ++ "_" ++ formatSelectivityName rowCount sel

/-- The `ExplainOnly` scenario built for one (rowCount, sel) pair in
`GetTestScenariosWithRowCountsAndSelectivities` (`src/scenarios.go`). -/
def explainScenario (rowCount : ℤ) (sel : ℚ) : TestScenario :=
  { ID := scenarioID rowCount sel, Variant := "ExplainOnly"
    Name := "Index Lookup - " ++ formatRowCountName rowCount ++ " rows, "
      ++ Int.repr (truncQ sel) ++ " selectivity"
    Query := "SELECT * FROM t" ++ formatRowCountName rowCount ++ " WHERE b = "
      ++ Int.repr (GetNumRows rowCount sel)
    TableName := "t" ++ formatRowCountName rowCount, RowCount := rowCount
    ExplainOnly := true }

/-- The `Index` scenario built for one (rowCount, sel) pair; its
`ExplainOnly` field is the Go zero value `false`. -/
def indexScenario (rowCount : ℤ) (sel : ℚ) : TestScenario :=
  { ID := scenarioID rowCount sel, Variant := "Index"
    Name := "Index lookup - " ++ formatRowCountName rowCount ++ " rows, "
      ++ Int.repr (truncQ sel) ++ " selectivity"
    Query := "SELECT /*+ FORCE_INDEX(t" ++ formatRowCountName rowCount
      ++ ", b) */ * FROM t" ++ formatRowCountName rowCount ++ " WHERE b = "
      ++ Int.repr (GetNumRows rowCount sel)
    TableName := "t" ++ formatRowCountName rowCount, RowCount := rowCount
    ExplainOnly := false }

/-- The `TableScan` scenario built for one (rowCount, sel) pair; its
`ExplainOnly` field is the Go zero value `false`. -/
def tableScanScenario (rowCount : ℤ) (sel : ℚ) : TestScenario :=
  { ID := scenarioID rowCount sel, Variant := "TableScan"
    Name := "Table Scan - " ++ formatRowCountName rowCount ++ " rows, "
      ++ Int.repr (truncQ sel) ++ " selectivity"
    Query := "SELECT /*+ IGNORE_INDEX(t" ++ formatRowCountName rowCount
      ++ ", b) */ * FROM t" ++ formatRowCountName rowCount ++ " WHERE b = "
      ++ Int.repr (GetNumRows rowCount sel)
    TableName := "t" ++ formatRowCountName rowCount, RowCount := rowCount
    ExplainOnly := false }

/-- The scenarios appended for one (rowCount, sel) pair by the inner loop of
`GetTestScenariosWithRowCountsAndSelectivities` (`src/scenarios.go`): one
`ExplainOnly` scenario, then `repetitions` copies of the `Index` scenario,
then `repetitions` copies of the `TableScan` scenario. -/
def scenariosForPair (rowCount : ℤ) (sel : ℚ) (repetitions : ℕ) : List TestScenario :=
  explainScenario rowCount sel
    :: (List.replicate repetitions (indexScenario rowCount sel)
      ++ List.replicate repetitions (tableScanScenario rowCount sel))

/-- The full scenario list built by the two nested loops of
`GetTestScenariosWithRowCountsAndSelectivities`, before the final shuffle. -/
def generateScenarios (rowCounts : List ℤ) (sels : List ℚ) (reps : ℕ) : List TestScenario :=
  rowCounts.flatMap (fun rc => sels.flatMap (fun s => scenariosForPair rc s reps))

/-- One swap `scenarios[i], scenarios[j] = scenarios[j], scenarios[i]` as
performed by the callback given to `rand.Shuffle`.  Indices are always in
range in the Go code; out-of-range indices leave the list unchanged. -/
def swapList {α : Type} (l : List α) (i j : ℕ) : List α :=
  match l[i]?, l[j]? with
  | some a, some b => (l.set i b).set j a
  | _, _ => l

/-- The loop of Go's `rand.Shuffle`: for i = n-1 down to 1, swap position i
with position `rng i % (i+1)` (the draw `rand.Intn(i+1)` is modelled by the
stream value reduced mod i+1). -/
def shuffleAux {α : Type} (rng : ℕ → ℕ) : List α → ℕ → List α
  | l, 0 => l
  | l, i + 1 => shuffleAux rng (swapList l (i + 1) (rng (i + 1) % (i + 2))) i

/-- Go's `rand.Shuffle(len(l), swap)` on a list. -/
def randShuffle {α : Type} (rng : ℕ → ℕ) (l : List α) : List α :=
  shuffleAux rng l (l.length - 1)

/-- Embeds `GetTestScenariosWithRowCountsAndSelectivities` from
`src/scenarios.go`: generate the cross product of scenarios, then shuffle. -/
def GetTestScenariosWithRowCountsAndSelectivities (rng : ℕ → ℕ)
    (rowCounts : List ℤ) (sels : List ℚ) (reps : ℕ) : List TestScenario :=
  randShuffle rng (generateScenarios rowCounts sels reps)

/-- Embeds `getRandomNotInList` from `src/scenarios.go`.  The Go body draws
`ret := rand.Intn(1000000) + 1` and then runs
`for i := range l { if i == ret { continue } }`: the comparison is between
the loop index `i` and `ret` (not between `l[i]` and `ret`), and `continue`
merely ends the already-empty remainder of the inner loop body, so the inner
loop has no observable effect and the outer loop returns `ret` on its first
iteration.  The draw `rand.Intn(1000000)` is modelled as `rng 0 % 1000000`. -/
def getRandomNotInList (l : List ℤ) (rng : ℕ → ℕ) : ℤ :=
  let ret : ℤ := ((rng 0 % 1000000 : ℕ) : ℤ) + 1
  let _indexChecks := (List.range l.length).map (fun i => ((i : ℤ) == ret))
  ret

/-- Go `strings.ToLower` restricted to the ASCII identifiers that occur in
plan operator names. -/
def toLowerStr (s : String) : String := String.mk (s.toList.map Char.toLower)

/-- Substring search on character lists: `containsSub pat s` is true iff
`pat` occurs contiguously in `s`. -/
def containsSub (pat : List Char) : List Char → Bool
  | [] => pat.isEmpty
  | c :: t => pat.isPrefixOf (c :: t) || containsSub pat t

/-- Go `strings.Contains(s, sub)`. -/
def strContains (s sub : String) : Bool := containsSub sub.toList s.toList

/-- Embeds the `ExecutionPlan` struct of the linked-chain TiDB client
(`src/unnamed/part_001`): one operator node with a `Next` pointer.  The
`Count` field is never assigned by any parser and is omitted; `EstRows`
(`float64`) is modelled as `ℚ` and `ActRows` (`int64`) as `ℤ`. -/
inductive ExecutionPlan : Type where
  | mk (ID Task : String) (EstRows : ℚ) (ActRows : ℤ)
       (AccessObject OperatorInfo ExecutionInfo Memory Disk : String)
       (Next : Option ExecutionPlan)

def ExecutionPlan.ID : ExecutionPlan → String
  | .mk i _ _ _ _ _ _ _ _ _ => i

def ExecutionPlan.Task : ExecutionPlan → String
  | .mk _ t _ _ _ _ _ _ _ _ => t

def ExecutionPlan.EstRows : ExecutionPlan → ℚ
  | .mk _ _ e _ _ _ _ _ _ _ => e

def ExecutionPlan.ActRows : ExecutionPlan → ℤ
  | .mk _ _ _ a _ _ _ _ _ _ => a

def ExecutionPlan.AccessObject : ExecutionPlan → String
  | .mk _ _ _ _ ao _ _ _ _ _ => ao

def ExecutionPlan.OperatorInfo : ExecutionPlan → String
  | .mk _ _ _ _ _ oi _ _ _ _ => oi

def ExecutionPlan.ExecutionInfo : ExecutionPlan → String
  | .mk _ _ _ _ _ _ ei _ _ _ => ei

def ExecutionPlan.Memory : ExecutionPlan → String
  | .mk _ _ _ _ _ _ _ m _ _ => m

def ExecutionPlan.Disk : ExecutionPlan → String
  | .mk _ _ _ _ _ _ _ _ d _ => d

def ExecutionPlan.Next : ExecutionPlan → Option ExecutionPlan
  | .mk _ _ _ _ _ _ _ _ _ n => n

/-- The local `id := strings.ToLower(plan.ID)` of `determinePlanType`. -/
def lowerID (p : ExecutionPlan) : String := toLowerStr p.ID

theorem ExecutionPlan.sizeOf_Next_lt (p : ExecutionPlan) : sizeOf p.Next < sizeOf p := by
  cases p with
  | mk i t e a ao oi ei m d n => simp [ExecutionPlan.Next]

mutual

/-- Embeds `determinePlanType` from the chain-based client
(`src/unnamed/part_001`): nil plans are unknown; a node whose lowered id
contains "index" but not "table" is an index lookup; one containing
"tablereader" is a table scan; otherwise the `for plan = plan.Next ...`
loop (`nextScan`) returns the first non-unknown classification of the
successor nodes. -/
def determinePlanType : Option ExecutionPlan → String
  | none => "unknown"
  | some p =>
    if strContains (lowerID p) "index" && !(strContains (lowerID p) "table") then
      "index_lookup"
    else if strContains (lowerID p) "tablereader" then "table_scan"
    else nextScan p.Next
termination_by p => (sizeOf p, 0)
decreasing_by
  exact Prod.Lex.left _ _ (Nat.lt_trans (ExecutionPlan.sizeOf_Next_lt p) (by simp))

/-- The `for plan = plan.Next; plan != nil; plan = plan.Next` loop in the
chain-based `determinePlanType`: classify each successor in turn and return
the first classification that is not "unknown". -/
def nextScan : Option ExecutionPlan → String
  | none => "unknown"
  | some p =>
    if determinePlanType (some p) ≠ "unknown" then determinePlanType (some p)
    else nextScan p.Next
termination_by p => (sizeOf p, 1)
decreasing_by
  · exact Prod.Lex.right _ (by omega)
  · exact Prod.Lex.left _ _ (Nat.lt_trans (ExecutionPlan.sizeOf_Next_lt p) (by simp))

end

/-- Embeds the `ExecutionPlan` struct of the tree-based TiDB client
(`src/tidb.go`): one operator node with a `Children` list.  The untyped
`Details` map is not consulted by any embedded function and is omitted. -/
inductive PlanTree : Type where
  | mk (ID Task OperatorInfo : String) (Count : ℤ) (EstRows EstCost : ℚ) (ActRows : ℤ)
       (ActTime Memory Disk AccessObject : String) (Children : List PlanTree)

def PlanTree.ID : PlanTree → String
  | .mk i _ _ _ _ _ _ _ _ _ _ _ => i

def PlanTree.Children : PlanTree → List PlanTree
  | .mk _ _ _ _ _ _ _ _ _ _ _ c => c

/-- The local `id := strings.ToLower(plan.ID)` of the tree-based
`determinePlanType`. -/
def lowerIDT (p : PlanTree) : String := toLowerStr p.ID

theorem PlanTree.sizeOf_Children_lt (p : PlanTree) : sizeOf p.Children < sizeOf p := by
  cases p with
  | mk a b c d e f g h i j k l => simp [PlanTree.Children]

theorem PlanTree.sizeOf_list_pos (l : List PlanTree) : 0 < sizeOf l := by
  cases l with
  | nil => simp
  | cons a t => simp

mutual

/-- Embeds `determinePlanType` from the tree-based client (`src/tidb.go`,
method on `TiDBClient`): same lexical rule as the chain version, with the
inconclusive case recursing over the `Children` list in order. -/
def determinePlanTypeTree : Option PlanTree → String
  | none => "unknown"
  | some p =>
    if strContains (lowerIDT p) "index" && !(strContains (lowerIDT p) "table") then
      "index_lookup"
    else if strContains (lowerIDT p) "tablereader" then "table_scan"
    else childScan p.Children
termination_by p => (sizeOf p, 0)
decreasing_by
  exact Prod.Lex.left _ _ (Nat.lt_trans (PlanTree.sizeOf_Children_lt p) (by simp))

/-- The `for _, child := range plan.Children` loop of the tree-based
`determinePlanType`: return the first non-"unknown" child classification. -/
def childScan : List PlanTree → String
  | [] => "unknown"
  | c :: cs =>
    if determinePlanTypeTree (some c) ≠ "unknown" then determinePlanTypeTree (some c)
    else childScan cs
termination_by l => (sizeOf l, 1)
decreasing_by
  · refine Prod.Lex.left _ _ ?_
    have hpos := PlanTree.sizeOf_list_pos cs
    simp
    omega
  · refine Prod.Lex.left _ _ ?_
    simp

end

/-- One 5-column EXPLAIN response row, as scanned by
`getPlanFromSimpleExplain`: id, estRows (`float64`, modelled as ℚ), task,
access object, operator info. -/
structure Row5 where
  id : String
  estRows : ℚ
  task : String
  accessObject : String
  operatorInfo : String
deriving DecidableEq

/-- One 9-column EXPLAIN ANALYZE response row, as scanned by
`getPlanFromExplainAnalyze`. -/
structure Row9 where
  id : String
  estRows : ℚ
  actRows : ℚ
  task : String
  accessObject : String
  executionInfo : String
  operatorInfo : String
  memory : String
  disk : String
deriving DecidableEq

/-- The node built from the scanned 5-column variables in one iteration of
`getPlanFromSimpleExplain`; unassigned fields keep their Go zero values. -/
def node5 (r : Row5) (next : Option ExecutionPlan) : ExecutionPlan :=
  .mk r.id r.task r.estRows 0 r.accessObject r.operatorInfo "" "" "" next

/-- The node built from the scanned 9-column variables in one iteration of
`getPlanFromExplainAnalyze`; `ActRows` is `int64(actRows)`, a truncating
conversion from `float64`. -/
def node9 (r : Row9) (next : Option ExecutionPlan) : ExecutionPlan :=
  .mk r.id r.task r.estRows (truncQ r.actRows) r.accessObject r.operatorInfo
    r.executionInfo r.memory r.disk next

/-- The chain-building loop of `getPlanFromSimpleExplain` with `n` response
rows still to consume: `rows.Scan` was executed once, BEFORE the loop, so
every iteration builds a node from the same scanned variables `r` while
`rows.Next()` merely advances the cursor. -/
def simpleChain (r : Row5) : ℕ → ExecutionPlan
  | 0 => node5 r none
  | n + 1 => node5 r (some (simpleChain r n))

/-- Embeds `getPlanFromSimpleExplain` from `src/unnamed/part_001`.  The
caller (`parseTabularExecutionPlan`) has already fetched the first row; the
single `rows.Scan` call reads it, and the loop then chains one node per
response row — every node carrying the FIRST row's fields, because the scan
is outside the loop. -/
def getPlanFromSimpleExplain (first : Row5) (rest : List Row5) : ExecutionPlan :=
  simpleChain first rest.length

/-- Embeds `getPlanFromExplainAnalyze` from `src/unnamed/part_001`: here
`rows.Scan` is INSIDE the loop, so the i-th node carries the i-th row's
fields. -/
def getPlanFromExplainAnalyze (first : Row9) (rest : List Row9) : ExecutionPlan :=
  match rest with
  | [] => node9 first none
  | r :: rs => node9 first (some (getPlanFromExplainAnalyze r rs))

/-- A tabular plan response as delivered by the SQL driver: the two known
shapes carry their typed rows; `other c n` stands for a response with
`c ∉ {5, 9}` columns and `n` rows, whose rows are never scanned. -/
inductive TabularResult : Type where
  | five (rows : List Row5)
  | nine (rows : List Row9)
  | other (numCols : ℕ) (numRows : ℕ)

/-- The column count of a response (`rows.Columns()`). -/
def TabularResult.colCount : TabularResult → ℕ
  | .five _ => 5
  | .nine _ => 9
  | .other c _ => c

/-- Embeds `parseTabularExecutionPlan` from `src/unnamed/part_001`:
`rows.Next()` is called first, so an empty response is the error
"no execution plan found" regardless of shape; then the column count
dispatches to the 5- or 9-column parser, and any other count is the hard
error "unsupported EXPLAIN format ...". -/
def parseTabularExecutionPlan : TabularResult → Except String ExecutionPlan
  | .five [] => .error "no execution plan found"
  | .five (r :: rs) => .ok (getPlanFromSimpleExplain r rs)
  | .nine [] => .error "no execution plan found"
  | .nine (r :: rs) => .ok (getPlanFromExplainAnalyze r rs)
  | .other _ 0 => .error "no execution plan found"
  | .other c (_ + 1) =>
    .error ("unsupported EXPLAIN format with " ++ Nat.repr c ++ " columns")

/-- Number of nodes in a plan chain. -/
def chainLength : ExecutionPlan → ℕ
  | .mk _ _ _ _ _ _ _ _ _ none => 1
  | .mk _ _ _ _ _ _ _ _ _ (some q) => 1 + chainLength q

/-- The i-th node (0-based) of a plan chain. -/
def chainNth : ExecutionPlan → ℕ → Option ExecutionPlan
  | p, 0 => some p
  | .mk _ _ _ _ _ _ _ _ _ none, _ + 1 => none
  | .mk _ _ _ _ _ _ _ _ _ (some q), n + 1 => chainNth q n

/-- The regular expression `copr_cache_hit_ratio: ([01]\.[0-9][0-9])` tried
at the head of a character list: on a match, the four captured characters
and the remainder of the input after the whole match. -/
def coprMatchHead (s : List Char) : Option (List Char × List Char) :=
  if ("copr_cache_hit_ratio: ".toList).isPrefixOf s then
    match s.drop ("copr_cache_hit_ratio: ".toList).length with
    | c1 :: c2 :: c3 :: c4 :: rest =>
      if (c1 == '0' || c1 == '1') && c2 == '.' && c3.isDigit && c4.isDigit then
        some ([c1, c2, c3, c4], rest)
      else none
    | _ => none
  else none

/-- Go `regexp.FindAllStringSubmatch(s, -1)` for the hit-ratio pattern: all
non-overlapping matches, scanning left to right.  The fuel equals the input
length, which suffices since every step consumes at least one character. -/
def coprScan : ℕ → List Char → List (List Char)
  | 0, _ => []
  | _, [] => []
  | fuel + 1, c :: rest =>
    match coprMatchHead (c :: rest) with
    | some capRem => capRem.1 :: coprScan fuel capRem.2
    | none => coprScan fuel rest

/-- All captured hit-ratio groups occurring in a string. -/
def coprCaptures (s : String) : List (List Char) := coprScan s.toList.length s.toList

/-- Embeds `isCoprCacheUsed` from `src/unnamed/part_001`: scan the node's
`ExecutionInfo` for hit-ratio matches; any captured group other than "0.00"
means the coprocessor cache served the query; otherwise recurse into `Next`. -/
def isCoprCacheUsed : Option ExecutionPlan → Bool
  | none => false
  | some p =>
    if (coprCaptures p.ExecutionInfo).any (fun cap => !(cap == "0.00".toList)) then true
    else isCoprCacheUsed p.Next
termination_by p => sizeOf p
decreasing_by
  exact Nat.lt_trans (ExecutionPlan.sizeOf_Next_lt p) (by simp)

/-- One SQL statement issued by the shaping and execution code, abstracted
to the parameters that matter for the table model. -/
inductive Stmt : Type where
  | dropTable (table : String)
  | createTable (table : String)
  | truncateTable (table : String)
  | insertRows (table : String) (numRows : ℕ)
  | updateWhereLe0 (table : String) (newVal : ℤ) (limit : ℕ)
  | updateWhereEq (table : String) (oldVal newVal : ℤ) (limit : ℕ)
  | updateWhereNotIn (table : String) (reserved : List ℤ) (newVal : ℤ) (limit : ℕ)
  | analyzeTable (table : String)
  | countQuery (table : String)
  | execQuery (q : String)
  | explainQuery (q : String)
deriving DecidableEq

/-- Row-mutating statements in the sense of claims C3 and C9: INSERT,
UPDATE, TRUNCATE and DROP statements.  CREATE, ANALYZE and the read-only
queries are not mutations of table rows. -/
def Stmt.isMutating : Stmt → Bool
  | .dropTable _ => true
  | .truncateTable _ => true
  | .insertRows _ _ => true
  | .updateWhereLe0 _ _ _ => true
  | .updateWhereEq _ _ _ _ => true
  | .updateWhereNotIn _ _ _ _ => true
  | .createTable _ => false
  | .analyzeTable _ => false
  | .countQuery _ => false
  | .execQuery _ => false
  | .explainQuery _ => false

/-- The shaped table, abstracted to the multiset of values in its predicate
column `b` (ids and filler are never consulted by the embedded code). -/
abbrev Table := List ℤ

/-- `SELECT COUNT(*) FROM t WHERE p(b)`. -/
def countWhere (p : ℤ → Bool) (t : Table) : ℤ := ((t.filter p).length : ℤ)

/-- `UPDATE t SET b = v WHERE p(b) LIMIT n`: up to n matching rows get the
new value.  Which rows the engine picks (`ORDER BY RAND()`) is unobservable
in the multiset abstraction, so the first n matching rows are taken. -/
def updateWhere (p : ℤ → Bool) (v : ℤ) : ℕ → Table → Table
  | _, [] => []
  | 0, t => t
  | n + 1, x :: xs =>
    if p x then v :: updateWhere p v n xs else x :: updateWhere p v (n + 1) xs

/-- Outcome of a database-driving function: a value, a Go error, or
non-termination of an unbounded loop within the given fuel. -/
inductive RunOut (α : Type) : Type where
  | ok (val : α)
  | err (msg : String)
  | diverged
deriving DecidableEq

/-- The sentinel-cleanup loop of `adjustSelectivities` (`src/scenarios.go`):
count rows with b ≤ 0; while any remain, draw a filler value and update one
batch of at most 50000 such rows to it.  `k` is the cursor into the random
stream. -/
def cleanupLoop (rng : ℕ → ℕ) (tn : String) (reserved : List ℤ) :
    ℕ → Table → ℕ → RunOut (Table × ℕ) × List Stmt
  | fuel, t, k =>
    if countWhere (fun b => decide (b ≤ 0)) t = 0 then (.ok (t, k), [.countQuery tn])
    else
      match fuel with
      | 0 => (.diverged, [.countQuery tn])
      | f + 1 =>
        let b := getRandomNotInList reserved (fun m => rng (k + m))
        let res := cleanupLoop rng tn reserved f
          (updateWhere (fun x => decide (x ≤ 0)) b 50000 t) (k + 1)
        (res.1, .countQuery tn :: .updateWhereLe0 tn b 50000 :: res.2)

/-- The too-many-rows loop of `adjustSelectivities`: while more than
`target` rows carry the value `target`, move a random batch of them to a
freshly drawn filler value and recount. -/
def decreaseLoop (rng : ℕ → ℕ) (tn : String) (reserved : List ℤ) (target : ℤ) :
    ℕ → Table → ℕ → RunOut (Table × ℕ) × List Stmt
  | fuel, t, k =>
    if countWhere (fun b => decide (b = target)) t > target then
      match fuel with
      | 0 => (.diverged, [])
      | f + 1 =>
        let b := getRandomNotInList reserved (fun m => rng (k + m))
        let res := decreaseLoop rng tn reserved target f
          (updateWhere (fun x => decide (x = target)) b 50000 t) (k + 1)
        (res.1, .updateWhereEq tn target b 50000 :: .countQuery tn :: res.2)
    else (.ok (t, k), [])

/-- The too-few-rows loop of `adjustSelectivities`: while fewer than
`target` rows carry the value `target`, update `limit` rows outside the
reserved values (no restriction when only one selectivity was given) to the
target value and recount. -/
def increaseLoop (tn : String) (notInPred : ℤ → Bool) (reserved : List ℤ)
    (target : ℤ) (limit : ℕ) : ℕ → Table → RunOut Table × List Stmt
  | fuel, t =>
    if countWhere (fun b => decide (b = target)) t < target then
      match fuel with
      | 0 => (.diverged, [])
      | f + 1 =>
        let res := increaseLoop tn notInPred reserved target limit f
          (updateWhere notInPred target limit t)
        (res.1, .updateWhereNotIn tn reserved target limit :: .countQuery tn :: res.2)
    else (.ok t, [])

/-- The per-spec loop of `adjustSelectivities`: skip non-positive targets,
skip targets whose count already matches (the count-check short circuit),
otherwise run the decrease loop then the increase loop. -/
def specsLoop (rng : ℕ → ℕ) (tn : String) (reserved : List ℤ) (notInPred : ℤ → Bool)
    (fuel : ℕ) : List ℤ → Table → ℕ → RunOut (Table × ℕ) × List Stmt
  | [], t, k => (.ok (t, k), [])
  | target :: rest, t, k =>
    if target ≤ 0 then specsLoop rng tn reserved notInPred fuel rest t k
    else if countWhere (fun b => decide (b = target)) t = target then
      let res := specsLoop rng tn reserved notInPred fuel rest t k
      (res.1, .countQuery tn :: res.2)
    else
      match decreaseLoop rng tn reserved target fuel t k with
      | (.ok (t1, k1), tr1) =>
        match increaseLoop tn notInPred reserved target (min target 50000).toNat fuel t1 with
        | (.ok t2, tr2) =>
          let res := specsLoop rng tn reserved notInPred fuel rest t2 k1
          (res.1, .countQuery tn :: (tr1 ++ tr2 ++ res.2))
        | (.err m, tr2) => (.err m, .countQuery tn :: (tr1 ++ tr2))
        | (.diverged, tr2) => (.diverged, .countQuery tn :: (tr1 ++ tr2))
      | (.err m, tr1) => (.err m, .countQuery tn :: tr1)
      | (.diverged, tr1) => (.diverged, .countQuery tn :: tr1)

/-- The verification pass of `adjustSelectivities`: one count query per
spec (mismatches only print a warning). -/
def verifyStmts (tn : String) (targets : List ℤ) : List Stmt :=
  targets.map (fun _ => .countQuery tn)

/-- Embeds `adjustSelectivities` from `src/scenarios.go`.  The empty-specs
check and the total-cardinality check (`numberOfRowsToUpdate >= rowCount`
yields the error "Total selectivity > 100%") precede every statement; then
the sentinel cleanup, the per-spec adjustment, the verification counts and
the final ANALYZE. -/
def adjustSelectivities (rng : ℕ → ℕ) (tn : String) (rowCount : ℤ) (sels : List ℚ)
    (t : Table) (k : ℕ) (fuel : ℕ) : RunOut (Table × ℕ) × List Stmt :=
  if sels.isEmpty then (.err "no selectivities given", [])
  else
    let rowsForSelectivities := sels.map (GetNumRows rowCount)
    if rowsForSelectivities.sum ≥ rowCount then (.err "Total selectivity > 100%", [])
    else
      let notInPred : ℤ → Bool :=
        if sels.length > 1 then (fun b => !(rowsForSelectivities.contains b))
        else (fun _ => true)
      match cleanupLoop rng tn rowsForSelectivities fuel t k with
      | (.ok (t1, k1), tr1) =>
        match specsLoop rng tn rowsForSelectivities notInPred fuel
            rowsForSelectivities t1 k1 with
        | (.ok (t2, k2), tr2) =>
          (.ok (t2, k2), tr1 ++ tr2 ++ verifyStmts tn rowsForSelectivities
            ++ [.analyzeTable tn])
        | (.err m, tr2) => (.err m, tr1 ++ tr2)
        | (.diverged, tr2) => (.diverged, tr1 ++ tr2)
      | (.err m, tr1) => (.err m, tr1)
      | (.diverged, tr1) => (.diverged, tr1)

/-- The batch-insert loop of `generateRandomData`: count; stop once the
table has `rowCount` rows; otherwise insert the next batch of random rows
(`FLOOR(RAND() * 1000000)` is modelled as `rng _ % 1000000`). -/
def insertLoop (rng : ℕ → ℕ) (tn : String) (rowCount : ℤ) :
    ℕ → Table → ℤ → ℕ → RunOut (Table × ℕ) × List Stmt
  | fuel, t, remaining, k =>
    if (t.length : ℤ) ≥ rowCount then (.ok (t, k), [.countQuery tn])
    else
      match fuel with
      | 0 => (.diverged, [.countQuery tn])
      | f + 1 =>
        let cbs : ℤ :=
          if remaining ≤ 100000 then min 100000 (rowCount - (t.length : ℤ)) else 100000
        let newRows := (List.range cbs.toNat).map (fun j => ((rng (k + j) % 1000000 : ℕ) : ℤ))
        let res := insertLoop rng tn rowCount f (t ++ newRows) (remaining - cbs)
          (k + cbs.toNat)
        (res.1, .countQuery tn :: .insertRows tn cbs.toNat :: res.2)

/-- Embeds `generateRandomData` from `src/scenarios.go`: set up the tmp
number-generator table, insert batches until `rowCount` rows exist, drop the
tmp table, validate the final count (failing loudly on mismatch), analyze. -/
def generateRandomData (rng : ℕ → ℕ) (tn : String) (rowCount : ℤ) (t : Table)
    (k : ℕ) (fuel : ℕ) : RunOut (Table × ℕ) × List Stmt :=
  let pre : List Stmt := [.dropTable ("tmp_" ++ tn), .createTable ("tmp_" ++ tn),
    .insertRows ("tmp_" ++ tn) 10]
  match insertLoop rng tn rowCount fuel t rowCount k with
  | (.ok (t1, k1), tr) =>
    if (t1.length : ℤ) ≠ rowCount then
      (.err ("expected " ++ Int.repr rowCount ++ " rows, got "
          ++ Int.repr (t1.length : ℤ) ++ " rows"),
        pre ++ tr ++ [.dropTable ("tmp_" ++ tn), .countQuery tn])
    else
      (.ok (t1, k1), pre ++ tr ++ [.dropTable ("tmp_" ++ tn), .countQuery tn,
        .analyzeTable tn])
  | (.err m, tr) => (.err m, pre ++ tr)
  | (.diverged, tr) => (.diverged, pre ++ tr)

/-- Embeds `generateTestData` from `src/scenarios.go`.  `tableExists`
abstracts whether `checkTableStatus`'s count query succeeds; on failure the
table is recreated (DROP IF EXISTS, CREATE) and `currentRowCount` keeps the
zero value.  A row-count mismatch triggers TRUNCATE and repopulation; only
then is `adjustSelectivities` called, whose errors are wrapped as
"failed to adjust selectivities: ...". -/
def generateTestData (rng : ℕ → ℕ) (tn : String) (tableExists : Bool) (t : Table)
    (rowCount : ℤ) (sels : List ℚ) (fuel : ℕ) : RunOut (Table × ℕ) × List Stmt :=
  let currentRowCount : ℤ := if tableExists then (t.length : ℤ) else 0
  let recreateStmts : List Stmt :=
    if tableExists then [] else [.dropTable tn, .createTable tn]
  let t0 : Table := if tableExists then t else []
  if currentRowCount ≠ rowCount then
    match generateRandomData rng tn rowCount [] 0 fuel with
    | (.ok (t1, k1), tr) =>
      match adjustSelectivities rng tn rowCount sels t1 k1 fuel with
      | (.ok (t2, k2), tr2) =>
        (.ok (t2, k2), .countQuery tn :: recreateStmts ++ (.truncateTable tn :: tr) ++ tr2)
      | (.err m, tr2) =>
        (.err ("failed to adjust selectivities: " ++ m),
          .countQuery tn :: recreateStmts ++ (.truncateTable tn :: tr) ++ tr2)
      | (.diverged, tr2) =>
        (.diverged, .countQuery tn :: recreateStmts ++ (.truncateTable tn :: tr) ++ tr2)
    | (.err m, tr) =>
      (.err ("failed to generate random data: " ++ m),
        .countQuery tn :: recreateStmts ++ (.truncateTable tn :: tr))
    | (.diverged, tr) =>
      (.diverged, .countQuery tn :: recreateStmts ++ (.truncateTable tn :: tr))
  else
    match adjustSelectivities rng tn rowCount sels t0 0 fuel with
    | (.ok (t2, k2), tr2) =>
      (.ok (t2, k2), .countQuery tn :: recreateStmts ++ tr2)
    | (.err m, tr2) =>
      (.err ("failed to adjust selectivities: " ++ m),
        .countQuery tn :: recreateStmts ++ tr2)
    | (.diverged, tr2) => (.diverged, .countQuery tn :: recreateStmts ++ tr2)

/-- Embeds the `TestExecutionResult` fields that `executeQueryWithMetrics`
assigns (`src/unnamed/part_001`); the wall-clock `ExecutionTime` is not
modelled. -/
structure TestExecutionResult where
  ScenarioID : String
  Variant : String
  Query : String
  PlanType : String
  RowsReturned : ℤ
  ExplainOnly : Bool
deriving DecidableEq

/-- The environment of one executor run: the plan responses the server
returns for the static EXPLAIN and for `EXPLAIN FOR CONNECTION` after the
n-th execution attempt, the number of rows the n-th execution returns, and
the (a, b, c) values scanned from its first returned row. -/
structure ExecEnv : Type where
  staticResp : TabularResult
  actualResp : ℕ → TabularResult
  rowsReturned : ℕ → ℕ
  firstRow : ℕ → ℤ × ℤ × String

/-- The `b` value used for cache invalidation on the n-th attempt: the
Go variables are scanned from the first returned row and keep their zero
values when the query returned no rows. -/
def bValOf (env : ExecEnv) (attempt : ℕ) : ℤ :=
  if env.rowsReturned attempt ≥ 1 then (env.firstRow attempt).2.1 else 0

/-- One direction of the cache-invalidation cycle (a do-while loop):
update a batch of at most 50000 rows from `fromVal` to `toVal`, recount,
repeat until no rows with `fromVal` remain. -/
def invalLoopTo (tn : String) (fromVal toVal : ℤ) : ℕ → Table → RunOut Table × List Stmt
  | 0, _ => (.diverged, [])
  | f + 1, t =>
    let t1 := updateWhere (fun x => decide (x = fromVal)) toVal 50000 t
    if countWhere (fun x => decide (x = fromVal)) t1 = 0 then
      (.ok t1, [.updateWhereEq tn fromVal toVal 50000, .countQuery tn])
    else
      let res := invalLoopTo tn fromVal toVal f t1
      (res.1, .updateWhereEq tn fromVal toVal 50000 :: .countQuery tn :: res.2)

/-- The cache-invalidation cycle of `executeQueryWithMetrics`
(`src/unnamed/part_001`): move every row with b = bVal to the sentinel
-313 in bounded batches until none remain, then move them all back. -/
def invalidateCoprCache (tn : String) (bVal : ℤ) (fuel : ℕ) (t : Table) :
    RunOut Table × List Stmt :=
  match invalLoopTo tn bVal (-313) fuel t with
  | (.ok t1, tr1) =>
    match invalLoopTo tn (-313) bVal fuel t1 with
    | (.ok t2, tr2) => (.ok t2, tr1 ++ tr2)
    | (.err m, tr2) => (.err m, tr1 ++ tr2)
    | (.diverged, tr2) => (.diverged, tr1 ++ tr2)
  | (.err m, tr1) => (.err m, tr1)
  | (.diverged, tr1) => (.diverged, tr1)

/-- The ExplainOnly branch of `executeQueryWithMetrics`: request the static
plan, classify it, return without executing. -/
def explainOnlyResult (env : ExecEnv) (sc : TestScenario) :
    RunOut TestExecutionResult × List Stmt :=
  match parseTabularExecutionPlan env.staticResp with
  | .error m => (.err m, [.explainQuery sc.Query])
  | .ok plan =>
    (.ok { ScenarioID := sc.ID, Variant := sc.Variant, Query := sc.Query,
           PlanType := determinePlanType (some plan), RowsReturned := 0,
           ExplainOnly := sc.ExplainOnly }, [.explainQuery sc.Query])

/-- The successful (uncontaminated) outcome of an executed attempt. -/
def executedCleanResult (env : ExecEnv) (sc : TestScenario) (attempt : ℕ)
    (plan : ExecutionPlan) : RunOut TestExecutionResult × List Stmt :=
  (.ok { ScenarioID := sc.ID, Variant := sc.Variant, Query := sc.Query,
         PlanType := determinePlanType (some plan),
         RowsReturned := (env.rowsReturned attempt : ℤ),
         ExplainOnly := sc.ExplainOnly },
    [.execQuery sc.Query, .explainQuery sc.Query])

/-- Embeds `executeQueryWithMetrics(testScenario, retry)` from
`src/unnamed/part_001`, with the boolean `retry` modelled as the number of
retries left (`retry = true` ↦ 1, `retry = false` ↦ 0) and the single Go
body specialized to the two values: ExplainOnly scenarios just parse and
classify the static plan; executed scenarios run the query, fetch and
classify the actual plan, and — when `isCoprCacheUsed` flags it — either
fail with "execution coprocessor cache is used" (retry exhausted) or run
one invalidation cycle and recurse with one retry fewer. -/
def executeQueryWithMetricsR (env : ExecEnv) (sc : TestScenario) :
    ℕ → ℕ → Table → ℕ → RunOut TestExecutionResult × List Stmt
  | 0, attempt, t, fuel =>
    if sc.ExplainOnly then explainOnlyResult env sc
    else
      match parseTabularExecutionPlan (env.actualResp attempt) with
      | .error m => (.err m, [.execQuery sc.Query, .explainQuery sc.Query])
      | .ok plan =>
        if isCoprCacheUsed (some plan) then
          (.err "execution coprocessor cache is used",
            [.execQuery sc.Query, .explainQuery sc.Query])
        else executedCleanResult env sc attempt plan
  | r + 1, attempt, t, fuel =>
    if sc.ExplainOnly then explainOnlyResult env sc
    else
      match parseTabularExecutionPlan (env.actualResp attempt) with
      | .error m => (.err m, [.execQuery sc.Query, .explainQuery sc.Query])
      | .ok plan =>
        if isCoprCacheUsed (some plan) then
          match invalidateCoprCache sc.TableName (bValOf env attempt) fuel t with
          | (.ok t1, tr) =>
            let res := executeQueryWithMetricsR env sc r (attempt + 1) t1 fuel
            (res.1, .execQuery sc.Query :: .explainQuery sc.Query :: (tr ++ res.2))
          | (.err m, tr) =>
            (.err m, .execQuery sc.Query :: .explainQuery sc.Query :: tr)
          | (.diverged, tr) =>
            (.diverged, .execQuery sc.Query :: .explainQuery sc.Query :: tr)
        else executedCleanResult env sc attempt plan

/-- Embeds `ExecuteQueryWithMetrics` from `src/unnamed/part_001`: the
retrying variant with `retry = true`, i.e. exactly one retry available. -/
def ExecuteQueryWithMetrics (env : ExecEnv) (sc : TestScenario) (t : Table)
    (fuel : ℕ) : RunOut TestExecutionResult × List Stmt :=
  executeQueryWithMetricsR env sc 1 0 t fuel

/- ---------------------------------------------------------------------- -/
/- Theorems.                                                              -/
/- ---------------------------------------------------------------------- -/

/-- Claim C1, as stated, is false: `GetNumRows` truncates the product
`rows × sel` toward zero instead of rounding it to the nearest integer.
At rows = 3, sel = 1/2 (both exactly representable in `float64`, so the
rational model agrees with the Go arithmetic) the code yields 1 while
round(3 × 1/2) = 2; and for sel = 5/2 ≥ 1 the code yields `int(sel)` = 2,
not the (non-integral) value s = 5/2 itself. -/
theorem GetNumRows_round_counterexample :
    GetNumRows 3 (1/2) = 1 ∧ round ((3 : ℚ) * (1/2)) = 2 ∧
    GetNumRows 5 (5/2) = 2 ∧ ((5 : ℚ)/2 ≠ ((2 : ℤ) : ℚ)) := by
  refine ⟨?_, ?_, ?_, by norm_num⟩
  · show GetNumRows 3 (1/2) = 1
    rw [GetNumRows, if_pos (by norm_num), truncQ, if_neg (by norm_num)]
    norm_num
  · rw [round_eq]
    norm_num
  · rw [GetNumRows, if_neg (by norm_num), truncQ, if_neg (by norm_num)]
    norm_num

/-- Claim C1 (amended): for every row count N > 0 and selectivity s > 0, the
target cardinality `GetNumRows N s` equals the truncation toward zero (equal
to the floor, as the arguments are positive) of N × s when 0 < s < 1, and
the truncation of s itself when s ≥ 1. -/
theorem GetNumRows_trunc (N : ℤ) (s : ℚ) (hN : 0 < N) (hs : 0 < s) :
    (s < 1 → GetNumRows N s = ⌊(N : ℚ) * s⌋) ∧
    (1 ≤ s → GetNumRows N s = ⌊s⌋) := by
  constructor
  · intro h
    rw [GetNumRows, if_pos h, truncQ, if_neg]
    rw [not_lt]
    have hN' : (0 : ℚ) ≤ (N : ℚ) := by exact_mod_cast le_of_lt hN
    exact mul_nonneg hN' (le_of_lt hs)
  · intro h
    rw [GetNumRows, if_neg (not_lt.mpr h), truncQ, if_neg (not_lt.mpr (le_of_lt hs))]

/-- Witness for `GetNumRows_trunc` at N = 1000, s = 1/10. -/
theorem GetNumRows_trunc_witness : GetNumRows 1000 (1/10) = 100 := by
  have h := (GetNumRows_trunc 1000 (1/10) (by norm_num) (by norm_num)).1 (by norm_num)
  rw [h]
  norm_num

/-- Claim C10: the table-size label is computed by truncating integer
division (`count/1000000 ++ "M"` for count ≥ 1000000, `count/1000 ++ "K"`
for 1000 ≤ count < 1000000, the decimal digits otherwise), `formatRowCount`
in `src/main.go` agrees with `formatRowCountName` in `src/scenarios.go`,
and the mapping is not injective: 1000 and 1500 both map to "1K", hence to
the same table name `t1K` and the same scenario-ID prefix. -/
theorem formatRowCountName_floor_div :
    (∀ c : ℤ, 1000000 ≤ c → formatRowCountName c = Int.repr (c / 1000000) ++ "M") ∧
    (∀ c : ℤ, 1000 ≤ c → c < 1000000 → formatRowCountName c = Int.repr (c / 1000) ++ "K") ∧
    (∀ c : ℤ, c < 1000 → formatRowCountName c = Int.repr c) ∧
    (∀ c : ℤ, formatRowCount c = formatRowCountName c) ∧
    formatRowCountName 1000 = "1K" ∧ formatRowCountName 1500 = "1K" ∧
    "t" ++ formatRowCountName 1000 = "t" ++ formatRowCountName 1500 := by
  refine ⟨?_, ?_, ?_, ?_, ?_, ?_, ?_⟩
  · intro c h
    rw [formatRowCountName, if_pos h]
  · intro c h1 h2
    rw [formatRowCountName, if_neg (not_le.mpr h2), if_pos h1]
  · intro c h
    rw [formatRowCountName, if_neg (not_le.mpr (lt_of_lt_of_le h (by norm_num))),
      if_neg (not_le.mpr h)]
  · intro c
    rw [formatRowCount, formatRowCountName]
  · rfl
  · rfl
  · rfl

/-- Witness for `formatRowCountName_floor_div` at concrete inputs. -/
theorem formatRowCountName_floor_div_witness :
    formatRowCountName 2000000 = "2M" ∧ formatRowCount 1500 = "1K" := by
  constructor
  · have h := formatRowCountName_floor_div.1 2000000 (by norm_num)
    rw [h]
    rfl
  · have h := (formatRowCountName_floor_div.2.2.2.1) 1500
    rw [h, formatRowCountName_floor_div.2.2.2.2.2.1]

theorem count_swapList {α : Type} [DecidableEq α] (l : List α) (i j : ℕ) (a : α) :
    List.count a (swapList l i j) = List.count a l := by
  rw [swapList]
  cases hi : l[i]? with
  | none => rfl
  | some x =>
    cases hj : l[j]? with
    | none => rfl
    | some y =>
      have hi' : i < l.length := by
        by_contra h
        rw [List.getElem?_eq_none (le_of_not_lt h)] at hi
        exact Option.noConfusion hi
      have hj' : j < l.length := by
        by_contra h
        rw [List.getElem?_eq_none (le_of_not_lt h)] at hj
        exact Option.noConfusion hj
      have hxm : l[i] = x := by
        have := List.getElem?_eq_getElem hi'
        rw [hi] at this
        exact (Option.some.injEq _ _).mp this.symm
      have hym : l[j] = y := by
        have := List.getElem?_eq_getElem hj'
        rw [hj] at this
        exact (Option.some.injEq _ _).mp this.symm
      have hj'' : j < (l.set i y).length := by
        rw [List.length_set]
        exact hj'
      have h1 : List.count a (l.set i y)
          = (List.count a l - if (l[i] == a) = true then 1 else 0)
            + if (y == a) = true then 1 else 0 :=
        List.count_set y a l i hi'
      have h2 : List.count a ((l.set i y).set j x)
          = (List.count a (l.set i y) - if ((l.set i y)[j] == a) = true then 1 else 0)
            + if (x == a) = true then 1 else 0 :=
        List.count_set x a (l.set i y) j hj''
      have hsetj : (l.set i y)[j] = y := by
        rw [List.getElem_set]
        by_cases hij : i = j
        · rw [if_pos hij]
        · rw [if_neg hij, hym]
      have hcx : (l[i] == a) = true → 0 < List.count a l := by
        intro hxa
        have : a ∈ l := by
          have : l[i] = a := by
            simpa using hxa
          rw [← this]
          exact List.getElem_mem hi'
        exact List.count_pos_iff.mpr this
      simp only [hsetj] at h2
      simp only [hxm] at h1 hcx
      rw [h2, h1]
      by_cases hxa : (x == a) = true
      · have hpos := hcx hxa
        rw [if_pos hxa]
        by_cases hya : (y == a) = true
        · rw [if_pos hya]
          omega
        · rw [if_neg hya]
          omega
      · rw [if_neg hxa]
        by_cases hya : (y == a) = true
        · rw [if_pos hya]
          omega
        · rw [if_neg hya]
          omega

theorem swapList_perm {α : Type} [DecidableEq α] (l : List α) (i j : ℕ) :
    (swapList l i j).Perm l :=
  List.perm_iff_count.mpr (fun a => count_swapList l i j a)

theorem shuffleAux_perm {α : Type} [DecidableEq α] (rng : ℕ → ℕ) :
    ∀ (n : ℕ) (l : List α), (shuffleAux rng l n).Perm l := by
  intro n
  induction n with
  | zero => intro l; exact List.Perm.refl l
  | succ k ih =>
    intro l
    rw [shuffleAux]
    exact (ih _).trans (swapList_perm l (k + 1) (rng (k + 1) % (k + 2)))

theorem randShuffle_perm {α : Type} [DecidableEq α] (rng : ℕ → ℕ) (l : List α) :
    (randShuffle rng l).Perm l :=
  shuffleAux_perm rng (l.length - 1) l

theorem length_flatMap_const {α β : Type} (l : List α) (f : α → List β) (n : ℕ)
    (h : ∀ a ∈ l, (f a).length = n) : (l.flatMap f).length = l.length * n := by
  induction l with
  | nil => simp
  | cons x xs ih =>
    rw [List.flatMap_cons, List.length_append, h x (List.mem_cons_self x xs),
      ih (fun a ha => h a (List.mem_cons_of_mem x ha)), List.length_cons]
    ring

theorem countP_flatMap_const {α β : Type} (p : β → Bool) (l : List α) (f : α → List β)
    (n : ℕ) (h : ∀ a ∈ l, (f a).countP p = n) :
    (l.flatMap f).countP p = l.length * n := by
  induction l with
  | nil => simp
  | cons x xs ih =>
    rw [List.flatMap_cons, List.countP_append, h x (List.mem_cons_self x xs),
      ih (fun a ha => h a (List.mem_cons_of_mem x ha)), List.length_cons]
    ring

theorem scenariosForPair_length (rc : ℤ) (s : ℚ) (reps : ℕ) :
    (scenariosForPair rc s reps).length = 1 + 2 * reps := by
  rw [scenariosForPair]
  simp only [List.length_cons, List.length_append, List.length_replicate]
  ring

theorem scenariosForPair_countP_explain (rc : ℤ) (s : ℚ) (reps : ℕ) :
    (scenariosForPair rc s reps).countP (·.ExplainOnly) = 1 := by
  rw [scenariosForPair]
  simp only [List.countP_cons, List.countP_append, List.countP_replicate]
  simp [explainScenario, indexScenario, tableScanScenario]

theorem generateScenarios_length (rcs : List ℤ) (sels : List ℚ) (reps : ℕ) :
    (generateScenarios rcs sels reps).length = rcs.length * sels.length * (1 + 2 * reps) := by
  rw [generateScenarios,
    length_flatMap_const _ _ (sels.length * (1 + 2 * reps)) (fun rc _ => by
      exact length_flatMap_const _ _ (1 + 2 * reps)
        (fun s _ => scenariosForPair_length rc s reps))]
  ring

theorem generateScenarios_countP_explain (rcs : List ℤ) (sels : List ℚ) (reps : ℕ) :
    (generateScenarios rcs sels reps).countP (·.ExplainOnly) = rcs.length * sels.length := by
  rw [generateScenarios,
    countP_flatMap_const _ _ _ sels.length (fun rc _ => by
      exact (countP_flatMap_const _ _ _ 1
        (fun s _ => scenariosForPair_countP_explain rc s reps)).trans (by ring))]

/-- Claim C7: the scenario generator returns exactly
|rowCounts| × |selectivities| × (1 + 2·repetitions) scenarios, exactly
|rowCounts| × |selectivities| of which are marked `ExplainOnly`; every
returned scenario's ID is also carried by an `ExplainOnly` scenario in the
returned list; and for every (rowCount, selectivity) pair the list contains
an `ExplainOnly` scenario with the pair's ID and (when repetitions ≥ 1)
`Index` and `TableScan` scenarios with the same ID. -/
theorem GetTestScenarios_counts (rng : ℕ → ℕ) (rowCounts : List ℤ) (sels : List ℚ)
    (reps : ℕ) (hrc : rowCounts ≠ []) (hs : sels ≠ []) :
    ((GetTestScenariosWithRowCountsAndSelectivities rng rowCounts sels reps).length
      = rowCounts.length * sels.length * (1 + 2 * reps)) ∧
    ((GetTestScenariosWithRowCountsAndSelectivities rng rowCounts sels reps).countP
      (·.ExplainOnly) = rowCounts.length * sels.length) ∧
    (∀ sc ∈ GetTestScenariosWithRowCountsAndSelectivities rng rowCounts sels reps,
      ∃ sc' ∈ GetTestScenariosWithRowCountsAndSelectivities rng rowCounts sels reps,
        sc'.ExplainOnly = true ∧ sc'.ID = sc.ID) ∧
    (∀ rc ∈ rowCounts, ∀ s ∈ sels,
      (∃ sc ∈ GetTestScenariosWithRowCountsAndSelectivities rng rowCounts sels reps,
        sc.ID = scenarioID rc s ∧ sc.Variant = "ExplainOnly" ∧ sc.ExplainOnly = true) ∧
      (1 ≤ reps →
        (∃ sc ∈ GetTestScenariosWithRowCountsAndSelectivities rng rowCounts sels reps,
          sc.ID = scenarioID rc s ∧ sc.Variant = "Index") ∧
        (∃ sc ∈ GetTestScenariosWithRowCountsAndSelectivities rng rowCounts sels reps,
          sc.ID = scenarioID rc s ∧ sc.Variant = "TableScan"))) := by
  have hperm := randShuffle_perm rng (generateScenarios rowCounts sels reps)
  refine ⟨?_, ?_, ?_, ?_⟩
  · rw [GetTestScenariosWithRowCountsAndSelectivities, hperm.length_eq]
    exact generateScenarios_length rowCounts sels reps
  · rw [GetTestScenariosWithRowCountsAndSelectivities, hperm.countP_eq]
    exact generateScenarios_countP_explain rowCounts sels reps
  · intro sc hsc
    rw [GetTestScenariosWithRowCountsAndSelectivities, hperm.mem_iff] at hsc
    rw [generateScenarios, List.mem_flatMap] at hsc
    obtain ⟨rc, hrcmem, hsc⟩ := hsc
    rw [List.mem_flatMap] at hsc
    obtain ⟨s, hsmem, hsc⟩ := hsc
    refine ⟨explainScenario rc s, ?_, rfl, ?_⟩
    · rw [GetTestScenariosWithRowCountsAndSelectivities, hperm.mem_iff, generateScenarios,
        List.mem_flatMap]
      refine ⟨rc, hrcmem, ?_⟩
      rw [List.mem_flatMap]
      refine ⟨s, hsmem, ?_⟩
      rw [scenariosForPair]
      exact List.mem_cons_self _ _
    · rw [scenariosForPair] at hsc
      rcases List.mem_cons.mp hsc with h | h
      · rw [h]
      · rcases List.mem_append.mp h with h' | h'
        · rw [(List.mem_replicate.mp h').2]
          rfl
        · rw [(List.mem_replicate.mp h').2]
          rfl
  · intro rc hrcmem s hsmem
    have hmem : ∀ x ∈ scenariosForPair rc s reps,
        x ∈ GetTestScenariosWithRowCountsAndSelectivities rng rowCounts sels reps := by
      intro x hx
      rw [GetTestScenariosWithRowCountsAndSelectivities, hperm.mem_iff, generateScenarios,
        List.mem_flatMap]
      refine ⟨rc, hrcmem, ?_⟩
      rw [List.mem_flatMap]
      exact ⟨s, hsmem, hx⟩
    constructor
    · refine ⟨explainScenario rc s, hmem _ ?_, rfl, rfl, rfl⟩
      rw [scenariosForPair]
      exact List.mem_cons_self _ _
    · intro hreps
      constructor
      · refine ⟨indexScenario rc s, hmem _ ?_, rfl, rfl⟩
        rw [scenariosForPair]
        refine List.mem_cons_of_mem _ (List.mem_append_left _ ?_)
        exact List.mem_replicate.mpr ⟨Nat.one_le_iff_ne_zero.mp hreps, rfl⟩
      · refine ⟨tableScanScenario rc s, hmem _ ?_, rfl, rfl⟩
        rw [scenariosForPair]
        refine List.mem_cons_of_mem _ (List.mem_append_right _ ?_)
        exact List.mem_replicate.mpr ⟨Nat.one_le_iff_ne_zero.mp hreps, rfl⟩

/-- Witness for `GetTestScenarios_counts` at rowCounts = [1000], sels = [1/2],
repetitions = 1 and the zero random stream. -/
theorem GetTestScenarios_counts_witness :
    (GetTestScenariosWithRowCountsAndSelectivities (fun _ => 0) [1000] [1/2] 1).length = 3 := by
  have h := (GetTestScenarios_counts (fun _ => 0) [1000] [1/2] 1 (by simp) (by simp)).1
  simpa using h

/-- Claim C2 fails on the code: `getRandomNotInList` returns the first random
draw unconditionally, ignoring the list.  Concretely, for l = [5] (a reserved
target cardinality inside the draw range 1..1000000) and first draw
`rand.Intn(1000000) = 4` (so ret = 5), the function returns 5 ∈ l.  The
general equation shows the returned value never depends on l at all. -/
theorem getRandomNotInList_collision :
    getRandomNotInList [5] (fun _ => 4) = 5 ∧ (5 : ℤ) ∈ [5] ∧
    (1 : ℤ) ≤ 5 ∧ (5 : ℤ) ≤ 1000000 ∧
    (∀ (l : List ℤ) (rng : ℕ → ℕ),
      getRandomNotInList l rng = ((rng 0 % 1000000 : ℕ) : ℤ) + 1) := by
  exact ⟨rfl, by simp, by norm_num, by norm_num, fun l rng => rfl⟩

theorem determinePlanType_none : determinePlanType none = "unknown" := by
  rw [determinePlanType]

theorem determinePlanType_some (p : ExecutionPlan) :
    determinePlanType (some p) =
      (if strContains (lowerID p) "index" && !(strContains (lowerID p) "table") then
        "index_lookup"
      else if strContains (lowerID p) "tablereader" then "table_scan"
      else nextScan p.Next) := by
  rw [determinePlanType]

theorem nextScan_none : nextScan none = "unknown" := by
  rw [nextScan]

theorem nextScan_some (p : ExecutionPlan) :
    nextScan (some p) =
      (if determinePlanType (some p) ≠ "unknown" then determinePlanType (some p)
      else nextScan p.Next) := by
  rw [nextScan]

theorem determinePlanTypeTree_none : determinePlanTypeTree none = "unknown" := by
  rw [determinePlanTypeTree]

theorem determinePlanTypeTree_some (p : PlanTree) :
    determinePlanTypeTree (some p) =
      (if strContains (lowerIDT p) "index" && !(strContains (lowerIDT p) "table") then
        "index_lookup"
      else if strContains (lowerIDT p) "tablereader" then "table_scan"
      else childScan p.Children) := by
  rw [determinePlanTypeTree]

theorem childScan_nil : childScan [] = "unknown" := by
  rw [childScan]

theorem childScan_cons (c : PlanTree) (cs : List PlanTree) :
    childScan (c :: cs) =
      (if determinePlanTypeTree (some c) ≠ "unknown" then determinePlanTypeTree (some c)
      else childScan cs) := by
  rw [childScan]

theorem determinePlanType_mem3 :
    ∀ p, (determinePlanType p = "index_lookup" ∨ determinePlanType p = "table_scan"
      ∨ determinePlanType p = "unknown") := by
  refine determinePlanType.induct
    (fun o => determinePlanType o = "index_lookup" ∨ determinePlanType o = "table_scan"
      ∨ determinePlanType o = "unknown")
    (fun o => nextScan o = "index_lookup" ∨ nextScan o = "table_scan"
      ∨ nextScan o = "unknown") ?_ ?_ ?_ ?_ ?_ ?_ ?_
  · exact Or.inr (Or.inr determinePlanType_none)
  · intro p h
    refine Or.inl ?_
    rw [determinePlanType_some, if_pos h]
  · intro p h1 h2
    refine Or.inr (Or.inl ?_)
    rw [determinePlanType_some, if_neg h1, if_pos h2]
  · intro p h1 h2 ih
    rw [determinePlanType_some, if_neg h1, if_neg h2]
    exact ih
  · exact Or.inr (Or.inr nextScan_none)
  · intro p h ih
    rw [nextScan_some, if_pos h]
    exact ih
  · intro p h ih1 ih2
    rw [nextScan_some, if_neg h]
    exact ih2

theorem determinePlanTypeTree_mem3 :
    ∀ p, (determinePlanTypeTree p = "index_lookup" ∨ determinePlanTypeTree p = "table_scan"
      ∨ determinePlanTypeTree p = "unknown") := by
  refine determinePlanTypeTree.induct
    (fun o => determinePlanTypeTree o = "index_lookup"
      ∨ determinePlanTypeTree o = "table_scan" ∨ determinePlanTypeTree o = "unknown")
    (fun l => childScan l = "index_lookup" ∨ childScan l = "table_scan"
      ∨ childScan l = "unknown") ?_ ?_ ?_ ?_ ?_ ?_ ?_
  · exact Or.inr (Or.inr determinePlanTypeTree_none)
  · intro p h
    refine Or.inl ?_
    rw [determinePlanTypeTree_some, if_pos h]
  · intro p h1 h2
    refine Or.inr (Or.inl ?_)
    rw [determinePlanTypeTree_some, if_neg h1, if_pos h2]
  · intro p h1 h2 ih
    rw [determinePlanTypeTree_some, if_neg h1, if_neg h2]
    exact ih
  · exact Or.inr (Or.inr childScan_nil)
  · intro c cs h ih
    rw [childScan_cons, if_pos h]
    exact ih
  · intro c cs h ih1 ih2
    rw [childScan_cons, if_neg h]
    exact ih2

/-- Claim C4: plan classification is total and deterministic — for every
plan (nil, linked chain, or tree of children) it returns exactly one of
"index_lookup", "table_scan", "unknown" — and follows the stated rule: a
node whose lowered identifier contains "index" and not "table" is an index
lookup, else one containing "tablereader" is a table scan, else the first
non-"unknown" classification of the children (chain successors resp. child
list) is returned, "unknown" if none.  In particular a root id
"IndexLookUp_10" classifies as "index_lookup" and a root id "TableReader_7"
classifies as "table_scan" in both representations. -/
theorem determinePlanType_spec :
    (∀ p, determinePlanType p = "index_lookup" ∨ determinePlanType p = "table_scan"
      ∨ determinePlanType p = "unknown") ∧
    (∀ p, determinePlanTypeTree p = "index_lookup" ∨ determinePlanTypeTree p = "table_scan"
      ∨ determinePlanTypeTree p = "unknown") ∧
    (∀ p : ExecutionPlan, strContains (lowerID p) "index" = true →
      strContains (lowerID p) "table" = false →
      determinePlanType (some p) = "index_lookup") ∧
    (∀ p : ExecutionPlan,
      (strContains (lowerID p) "index" && !(strContains (lowerID p) "table")) = false →
      strContains (lowerID p) "tablereader" = true →
      determinePlanType (some p) = "table_scan") ∧
    (∀ p : ExecutionPlan,
      (strContains (lowerID p) "index" && !(strContains (lowerID p) "table")) = false →
      strContains (lowerID p) "tablereader" = false →
      determinePlanType (some p) = nextScan p.Next) ∧
    (nextScan none = "unknown" ∧ childScan [] = "unknown") ∧
    (∀ p : ExecutionPlan, determinePlanType (some p) ≠ "unknown" →
      nextScan (some p) = determinePlanType (some p)) ∧
    (∀ p : ExecutionPlan, determinePlanType (some p) = "unknown" →
      nextScan (some p) = nextScan p.Next) ∧
    determinePlanType (some (.mk "IndexLookUp_10" "root" 10 0 "" "" "" "" "" none))
      = "index_lookup" ∧
    determinePlanType (some (.mk "TableReader_7" "root" 10 0 "" "" "" "" "" none))
      = "table_scan" ∧
    determinePlanTypeTree (some (.mk "IndexLookUp_10" "root" "" 0 10 1 0 "" "" "" "" []))
      = "index_lookup" ∧
    determinePlanTypeTree (some (.mk "TableReader_7" "root" "" 0 10 1 0 "" "" "" "" []))
      = "table_scan" := by
  refine ⟨determinePlanType_mem3, determinePlanTypeTree_mem3, ?_, ?_, ?_,
    ⟨nextScan_none, childScan_nil⟩, ?_, ?_, ?_, ?_, ?_, ?_⟩
  · intro p h1 h2
    rw [determinePlanType_some, if_pos (by rw [h1, h2]; rfl)]
  · intro p h1 h2
    rw [determinePlanType_some, if_neg (by rw [h1]; simp), if_pos h2]
  · intro p h1 h2
    rw [determinePlanType_some, if_neg (by rw [h1]; simp), if_neg (by rw [h2]; simp)]
  · intro p h
    rw [nextScan_some, if_pos h]
  · intro p h
    rw [nextScan_some, if_neg (by simp [h])]
  · rw [determinePlanType]
    simp [ExecutionPlan.ID, lowerID, toLowerStr, strContains, containsSub]
  · rw [determinePlanType]
    simp [ExecutionPlan.ID, lowerID, toLowerStr, strContains, containsSub]
  · rw [determinePlanTypeTree]
    simp [PlanTree.ID, lowerIDT, toLowerStr, strContains, containsSub]
  · rw [determinePlanTypeTree]
    simp [PlanTree.ID, lowerIDT, toLowerStr, strContains, containsSub]

/-- Witness for `determinePlanType_spec`: its rule clauses applied at
concrete nodes. -/
theorem determinePlanType_spec_witness :
    determinePlanType (some (.mk "IndexReader_5" "root" 10 0 "" "" "" "" "" none))
      = "index_lookup" ∧
    determinePlanType (some (.mk "Projection_4" "root" 10 0 "" "" "" "" "" none))
      = nextScan none := by
  constructor
  · exact determinePlanType_spec.2.2.1 _ (by decide) (by decide)
  · exact determinePlanType_spec.2.2.2.2.1 _ (by decide) (by decide)

theorem simpleChain_length (r : Row5) : ∀ n, chainLength (simpleChain r n) = 1 + n := by
  intro n
  induction n with
  | zero => rfl
  | succ k ih =>
    show chainLength (node5 r (some (simpleChain r k))) = 1 + (k + 1)
    rw [node5, chainLength, ih]
    omega

theorem simpleChain_nth (r : Row5) :
    ∀ (n i : ℕ), i ≤ n →
      (chainNth (simpleChain r n) i).map ExecutionPlan.ID = some r.id := by
  intro n
  induction n with
  | zero =>
    intro i hi
    rw [Nat.le_zero.mp hi]
    rfl
  | succ k ih =>
    intro i hi
    cases i with
    | zero => rfl
    | succ j =>
      show (chainNth (node5 r (some (simpleChain r k))) (j + 1)).map
        ExecutionPlan.ID = some r.id
      rw [node5, chainNth]
      exact ih j (Nat.succ_le_succ_iff.mp hi)

/-- Claim C5 fails on the code: in `getPlanFromSimpleExplain` the single
`rows.Scan` call precedes the loop, so while the returned chain has exactly
one node per response row (in row order), every node carries the FIRST
row's fields.  At the concrete 2-row response below the second node carries
id "TableReader_7" instead of the second row's id "TableFullScan_6"; in
general every node of a parsed 5-column chain carries the first row's id.
The sibling 9-column parser `getPlanFromExplainAnalyze`, whose Scan is
inside the loop, preserves each row's id. -/
theorem getPlanFromSimpleExplain_first_row_only :
    chainLength (getPlanFromSimpleExplain
      ⟨"TableReader_7", 10, "root", "", "data:TableFullScan_6"⟩
      [⟨"TableFullScan_6", 10, "cop", "table:t1K", "keep order:false"⟩]) = 2 ∧
    (chainNth (getPlanFromSimpleExplain
      ⟨"TableReader_7", 10, "root", "", "data:TableFullScan_6"⟩
      [⟨"TableFullScan_6", 10, "cop", "table:t1K", "keep order:false"⟩]) 1).map
        ExecutionPlan.ID = some "TableReader_7" ∧
    ("TableReader_7" : String) ≠ "TableFullScan_6" ∧
    (∀ (first : Row5) (rest : List Row5),
      chainLength (getPlanFromSimpleExplain first rest) = 1 + rest.length) ∧
    (∀ (first : Row5) (rest : List Row5) (i : ℕ), i ≤ rest.length →
      (chainNth (getPlanFromSimpleExplain first rest) i).map ExecutionPlan.ID
        = some first.id) ∧
    (chainNth (getPlanFromExplainAnalyze
      ⟨"IndexLookUp_10", 10, 10, "root", "", "", "", "N/A", "N/A"⟩
      [⟨"IndexRangeScan_8", 10, 10, "cop", "index:b", "", "", "N/A", "N/A"⟩]) 1).map
        ExecutionPlan.ID = some "IndexRangeScan_8" := by
  refine ⟨by decide, by decide, by decide, ?_, ?_, by decide⟩
  · intro first rest
    exact simpleChain_length first rest.length
  · intro first rest i hi
    exact simpleChain_nth first rest.length i hi

/-- Witness for `getPlanFromSimpleExplain_first_row_only`: its general
clauses applied at a concrete 2-row response. -/
theorem getPlanFromSimpleExplain_first_row_only_witness :
    (chainNth (getPlanFromSimpleExplain ⟨"IndexReader_5", 10, "root", "", ""⟩
      [⟨"IndexRangeScan_4", 10, "cop", "index:b", ""⟩]) 1).map ExecutionPlan.ID
      = some "IndexReader_5" ∧
    chainLength (getPlanFromSimpleExplain ⟨"IndexReader_5", 10, "root", "", ""⟩
      [⟨"IndexRangeScan_4", 10, "cop", "index:b", ""⟩]) = 2 := by
  constructor
  · exact getPlanFromSimpleExplain_first_row_only.2.2.2.2.1
      ⟨"IndexReader_5", 10, "root", "", ""⟩ [⟨"IndexRangeScan_4", 10, "cop", "index:b", ""⟩]
      1 (by decide)
  · have h := getPlanFromSimpleExplain_first_row_only.2.2.2.1
      ⟨"IndexReader_5", 10, "root", "", ""⟩ [⟨"IndexRangeScan_4", 10, "cop", "index:b", ""⟩]
    rw [h]
    rfl

/-- Claim C8: `parseTabularExecutionPlan` returns a plan only for 5- and
9-column responses; for every other column count it returns an error — the
"unsupported EXPLAIN format" parse error whenever rows are present (an
empty response fails earlier with "no execution plan found") — and never a
default or zero-valued plan; nonempty 5- and 9-column responses dispatch to
the respective row parsers. -/
theorem parseTabularExecutionPlan_dispatch :
    (∀ resp : TabularResult, (∃ p, parseTabularExecutionPlan resp = .ok p) →
      resp.colCount = 5 ∨ resp.colCount = 9) ∧
    (∀ c n : ℕ, c ≠ 5 → c ≠ 9 →
      ∃ msg, parseTabularExecutionPlan (.other c n) = .error msg) ∧
    (∀ c n : ℕ, c ≠ 5 → c ≠ 9 → 1 ≤ n →
      parseTabularExecutionPlan (.other c n)
        = .error ("unsupported EXPLAIN format with " ++ Nat.repr c ++ " columns")) ∧
    (∀ (r : Row5) (rs : List Row5),
      parseTabularExecutionPlan (.five (r :: rs)) = .ok (getPlanFromSimpleExplain r rs)) ∧
    (∀ (r : Row9) (rs : List Row9),
      parseTabularExecutionPlan (.nine (r :: rs)) = .ok (getPlanFromExplainAnalyze r rs)) := by
  refine ⟨?_, ?_, ?_, fun r rs => rfl, fun r rs => rfl⟩
  · intro resp hp
    obtain ⟨p, hp⟩ := hp
    cases resp with
    | five rows => exact Or.inl rfl
    | nine rows => exact Or.inr rfl
    | other c n =>
      cases n with
      | zero => simp [parseTabularExecutionPlan] at hp
      | succ m => simp [parseTabularExecutionPlan] at hp
  · intro c n h5 h9
    cases n with
    | zero => exact ⟨"no execution plan found", rfl⟩
    | succ m => exact ⟨"unsupported EXPLAIN format with " ++ Nat.repr c ++ " columns", rfl⟩
  · intro c n h5 h9 hn
    cases n with
    | zero => exact absurd hn (by norm_num)
    | succ m => rfl

/-- Witness for `parseTabularExecutionPlan_dispatch` at a 7-column,
3-row response. -/
theorem parseTabularExecutionPlan_dispatch_witness :
    parseTabularExecutionPlan (.other 7 3)
      = .error "unsupported EXPLAIN format with 7 columns" := by
  have h := parseTabularExecutionPlan_dispatch.2.2.1 7 3 (by norm_num) (by norm_num)
    (by norm_num)
  rw [h]
  rfl

theorem adjustSelectivities_sum_rejected (rng : ℕ → ℕ) (tn : String) (rowCount : ℤ)
    (sels : List ℚ) (t : Table) (k fuel : ℕ)
    (hne : sels ≠ []) (hsum : rowCount ≤ (sels.map (GetNumRows rowCount)).sum) :
    adjustSelectivities rng tn rowCount sels t k fuel
      = (.err "Total selectivity > 100%", []) := by
  unfold adjustSelectivities
  rw [if_neg (by simp [List.isEmpty_iff, hne]), if_pos (by exact hsum)]

theorem generateTestData_existing_rejected (rng : ℕ → ℕ) (tn : String) (rowCount : ℤ)
    (sels : List ℚ) (fuel : ℕ) (t' : Table)
    (hne : sels ≠ []) (hsum : rowCount ≤ (sels.map (GetNumRows rowCount)).sum)
    (hlen : (t'.length : ℤ) = rowCount) :
    generateTestData rng tn true t' rowCount sels fuel
      = (.err "failed to adjust selectivities: Total selectivity > 100%",
         [.countQuery tn]) := by
  unfold generateTestData
  rw [if_neg (by simp [hlen])]
  have hadj := adjustSelectivities_sum_rejected rng tn rowCount sels t' 0 fuel hne hsum
  simp [hadj]

/-- Claim C3, as stated, fails on the code: with table t4 existing but
holding 1 ≠ 4 rows and selectivities [3/5, 1/2] (target cardinalities
2 + 2 = 4 ≥ 4), `generateTestData` does reject the request with the
total-selectivity error, but only AFTER having issued TRUNCATE and INSERT
statements (and the tmp-table DROP/CREATE) to repopulate the table, because
the population phase runs before `adjustSelectivities` performs the check. -/
theorem generateTestData_rejects_after_mutation :
    (generateTestData (fun _ => 0) "t4" true [1] 4 [3/5, 1/2] 3).1
      = .err "failed to adjust selectivities: Total selectivity > 100%" ∧
    Stmt.truncateTable "t4" ∈ (generateTestData (fun _ => 0) "t4" true [1] 4 [3/5, 1/2] 3).2 ∧
    (generateTestData (fun _ => 0) "t4" true [1] 4 [3/5, 1/2] 3).2.filter Stmt.isMutating
      ≠ [] := by
  have h1 : GetNumRows 4 (3/5) = 2 := by
    rw [GetNumRows, if_pos (by norm_num), truncQ, if_neg (by norm_num)]
    norm_num
  have h2 : GetNumRows 4 (1/2) = 2 := by
    rw [GetNumRows, if_pos (by norm_num), truncQ, if_neg (by norm_num)]
    norm_num
  have hg : generateRandomData (fun _ => 0) "t4" 4 [] 0 3
      = (.ok ([0, 0, 0, 0], 4),
         [.dropTable "tmp_t4", .createTable "tmp_t4", .insertRows "tmp_t4" 10,
          .countQuery "t4", .insertRows "t4" 4, .countQuery "t4",
          .dropTable "tmp_t4", .countQuery "t4", .analyzeTable "t4"]) := by decide
  have hadj : adjustSelectivities (fun _ => 0) "t4" 4 [3/5, 1/2] [0, 0, 0, 0] 4 3
      = (.err "Total selectivity > 100%", []) := by
    refine adjustSelectivities_sum_rejected _ _ _ _ _ _ _ (by simp) ?_
    rw [List.map_cons, List.map_cons, List.map_nil, h1, h2]
    norm_num
  have hfull : generateTestData (fun _ => 0) "t4" true [1] 4 [3/5, 1/2] 3
      = (.err "failed to adjust selectivities: Total selectivity > 100%",
         [.countQuery "t4", .truncateTable "t4",
          .dropTable "tmp_t4", .createTable "tmp_t4", .insertRows "tmp_t4" 10,
          .countQuery "t4", .insertRows "t4" 4, .countQuery "t4",
          .dropTable "tmp_t4", .countQuery "t4", .analyzeTable "t4"]) := by
    unfold generateTestData
    rw [if_pos (by decide), hg]
    dsimp only
    rw [hadj]
    decide
  rw [hfull]
  exact ⟨rfl, by decide, by decide⟩

/-- Claim C3 (amended): the total-cardinality check of
`adjustSelectivities` precedes every statement that function issues, so the
request is rejected before any UPDATE of the adjustment phase; consequently
when the table already exists with exactly the requested row count, the
whole shaping run issues no table-mutating statement at all (only the
initial count query).  When the table is missing or has the wrong row
count, however, recreation and repopulation mutations precede the
rejection, as `generateTestData_rejects_after_mutation` shows. -/
theorem sum_check_rejects_before_mutation (rng : ℕ → ℕ) (tn : String) (rowCount : ℤ)
    (sels : List ℚ) (t t' : Table) (k fuel : ℕ)
    (hne : sels ≠ []) (hsum : rowCount ≤ (sels.map (GetNumRows rowCount)).sum)
    (hlen : (t'.length : ℤ) = rowCount) :
    adjustSelectivities rng tn rowCount sels t k fuel
      = (.err "Total selectivity > 100%", []) ∧
    generateTestData rng tn true t' rowCount sels fuel
      = (.err "failed to adjust selectivities: Total selectivity > 100%",
         [.countQuery tn]) ∧
    ([Stmt.countQuery tn].filter Stmt.isMutating = ([] : List Stmt)) :=
  ⟨adjustSelectivities_sum_rejected rng tn rowCount sels t k fuel hne hsum,
   generateTestData_existing_rejected rng tn rowCount sels fuel t' hne hsum hlen,
   rfl⟩

/-- Witness for `sum_check_rejects_before_mutation` at rowCount = 4,
selectivities [3/5, 1/2], table [0, 0, 0, 0]. -/
theorem sum_check_rejects_before_mutation_witness :
    generateTestData (fun _ => 0) "t4w" true [0, 0, 0, 0] 4 [3/5, 1/2] 0
      = (.err "failed to adjust selectivities: Total selectivity > 100%",
         [.countQuery "t4w"]) := by
  have h1 : GetNumRows 4 (3/5) = 2 := by
    rw [GetNumRows, if_pos (by norm_num), truncQ, if_neg (by norm_num)]
    norm_num
  have h2 : GetNumRows 4 (1/2) = 2 := by
    rw [GetNumRows, if_pos (by norm_num), truncQ, if_neg (by norm_num)]
    norm_num
  refine (sum_check_rejects_before_mutation (fun _ => 0) "t4w" 4 [3/5, 1/2]
    [0, 0, 0, 0] [0, 0, 0, 0] 0 0 (by simp) ?_ (by decide)).2.1
  rw [List.map_cons, List.map_cons, List.map_nil, h1, h2]
  norm_num

theorem cleanupLoop_clean (rng : ℕ → ℕ) (tn : String) (reserved : List ℤ)
    (fuel : ℕ) (t : Table) (k : ℕ)
    (hpos : countWhere (fun b => decide (b ≤ 0)) t = 0) :
    cleanupLoop rng tn reserved fuel t k = (.ok (t, k), [.countQuery tn]) := by
  rw [cleanupLoop.eq_def]
  dsimp only
  rw [if_pos hpos]

theorem specsLoop_short_circuit (rng : ℕ → ℕ) (tn : String) (reserved : List ℤ)
    (pred : ℤ → Bool) (fuel : ℕ) :
    ∀ (targets : List ℤ) (t : Table) (k : ℕ),
      (∀ tg ∈ targets, 0 < tg → countWhere (fun b => decide (b = tg)) t = tg) →
      ∃ tr, specsLoop rng tn reserved pred fuel targets t k = (.ok (t, k), tr) ∧
        tr.filter Stmt.isMutating = [] := by
  intro targets
  induction targets with
  | nil => intro t k h; exact ⟨[], rfl, rfl⟩
  | cons tg rest ih =>
    intro t k h
    by_cases htg : tg ≤ 0
    · obtain ⟨tr, htr, hmut⟩ := ih t k (fun x hx hx0 =>
        h x (List.mem_cons_of_mem tg hx) hx0)
      refine ⟨tr, ?_, hmut⟩
      rw [specsLoop, if_pos htg]
      exact htr
    · have hc := h tg (List.mem_cons_self tg rest) (lt_of_not_le htg)
      obtain ⟨tr, htr, hmut⟩ := ih t k (fun x hx hx0 =>
        h x (List.mem_cons_of_mem tg hx) hx0)
      refine ⟨.countQuery tn :: tr, ?_, ?_⟩
      · rw [specsLoop, if_neg htg, if_pos hc, htr]
      · simp [List.filter, Stmt.isMutating, hmut]

theorem verifyStmts_no_mutation (tn : String) (targets : List ℤ) :
    (verifyStmts tn targets).filter Stmt.isMutating = [] := by
  induction targets with
  | nil => rfl
  | cons tg rest ih =>
    rw [verifyStmts] at ih ⊢
    rw [List.map_cons, List.filter_cons]
    simp [Stmt.isMutating, ih]

theorem adjustSelectivities_no_mutation (rng : ℕ → ℕ) (tn : String) (rowCount : ℤ)
    (sels : List ℚ) (t : Table) (k fuel : ℕ)
    (hpos : countWhere (fun b => decide (b ≤ 0)) t = 0)
    (hcounts : ∀ s ∈ sels, countWhere (fun b => decide (b = GetNumRows rowCount s)) t
      = GetNumRows rowCount s) :
    (adjustSelectivities rng tn rowCount sels t k fuel).2.filter Stmt.isMutating = [] := by
  unfold adjustSelectivities
  by_cases hemp : sels.isEmpty
  · rw [if_pos hemp]
    rfl
  · rw [if_neg hemp]
    by_cases hsum : (sels.map (GetNumRows rowCount)).sum ≥ rowCount
    · rw [if_pos hsum]
      rfl
    · rw [if_neg hsum]
      rw [cleanupLoop_clean rng tn (sels.map (GetNumRows rowCount)) fuel t k hpos]
      dsimp only
      have hspec : ∀ tg ∈ sels.map (GetNumRows rowCount), 0 < tg →
          countWhere (fun b => decide (b = tg)) t = tg := by
        intro tg htg _
        obtain ⟨s, hs, rfl⟩ := List.mem_map.mp htg
        exact hcounts s hs
      obtain ⟨tr, htr, hmut⟩ := specsLoop_short_circuit rng tn
        (sels.map (GetNumRows rowCount))
        (if sels.length > 1 then (fun b => !((sels.map (GetNumRows rowCount)).contains b))
          else (fun _ => true)) fuel (sels.map (GetNumRows rowCount)) t k hspec
      rw [htr]
      simp [List.filter_append, hmut, verifyStmts_no_mutation, Stmt.isMutating,
        List.filter, hpos]

/-- Claim C9: shaping is idempotent — when the table already exists with
exactly the requested row count, no row has a non-positive predicate value,
and for every selectivity the count of rows at its target cardinality
already equals that cardinality, `generateTestData` (and hence the whole
shaping run) issues zero row-mutating statements: the sentinel cleanup loop
exits at its first count, and every spec is short-circuited by its count
check. -/
theorem generateTestData_idempotent (rng : ℕ → ℕ) (tn : String) (t : Table)
    (rowCount : ℤ) (sels : List ℚ) (fuel : ℕ)
    (hlen : (t.length : ℤ) = rowCount)
    (hpos : countWhere (fun b => decide (b ≤ 0)) t = 0)
    (hcounts : ∀ s ∈ sels, countWhere (fun b => decide (b = GetNumRows rowCount s)) t
      = GetNumRows rowCount s) :
    (generateTestData rng tn true t rowCount sels fuel).2.filter Stmt.isMutating = [] := by
  have hadj := adjustSelectivities_no_mutation rng tn rowCount sels t 0 fuel hpos hcounts
  unfold generateTestData
  rw [if_neg (by simp [hlen])]
  rcases hres : adjustSelectivities rng tn rowCount sels t 0 fuel with ⟨r, tr2⟩
  rw [hres] at hadj
  simp only [if_true]
  rw [hres]
  cases r with
  | ok v => simp [Stmt.isMutating, hadj]
  | err m => simp [Stmt.isMutating, hadj]
  | diverged => simp [Stmt.isMutating, hadj]

/-- Witness for `generateTestData_idempotent` at a table [2, 2, 1] with 3
rows and the single selectivity 2/3 (target cardinality 2, already met by
the two rows with b = 2). -/
theorem generateTestData_idempotent_witness :
    (generateTestData (fun _ => 0) "t3" true [2, 2, 1] 3 [2/3] 0).2.filter
      Stmt.isMutating = [] := by
  have hg : GetNumRows 3 (2/3) = 2 := by
    rw [GetNumRows, if_pos (by norm_num), truncQ, if_neg (by norm_num)]
    norm_num
  refine generateTestData_idempotent (fun _ => 0) "t3" [2, 2, 1] 3 [2/3] 0
    (by decide) (by decide) ?_
  intro s hs
  rw [List.mem_singleton] at hs
  rw [hs, hg]
  decide

theorem invalLoopTo_not_err (tn : String) (x y : ℤ) :
    ∀ (fuel : ℕ) (t : Table),
      (∃ t', (invalLoopTo tn x y fuel t).1 = .ok t') ∨
      (invalLoopTo tn x y fuel t).1 = .diverged := by
  intro fuel
  induction fuel with
  | zero => intro t; exact Or.inr rfl
  | succ f ih =>
    intro t
    rw [invalLoopTo]
    by_cases hc : countWhere (fun v => decide (v = x))
        (updateWhere (fun v => decide (v = x)) y 50000 t) = 0
    · rw [if_pos hc]
      exact Or.inl ⟨_, rfl⟩
    · rw [if_neg hc]
      exact ih (updateWhere (fun v => decide (v = x)) y 50000 t)

theorem invalidateCoprCache_not_err (tn : String) (b : ℤ) (fuel : ℕ) (t : Table) :
    (∃ t2, (invalidateCoprCache tn b fuel t).1 = .ok t2) ∨
    (invalidateCoprCache tn b fuel t).1 = .diverged := by
  unfold invalidateCoprCache
  rcases h1 : invalLoopTo tn b (-313) fuel t with ⟨r1, tr1⟩
  rcases invalLoopTo_not_err tn b (-313) fuel t with ⟨t1, ht1⟩ | ht1 <;>
    rw [h1] at ht1 <;> dsimp only at ht1
  · subst ht1
    rcases h2 : invalLoopTo tn (-313) b fuel t1 with ⟨r2, tr2⟩
    rcases invalLoopTo_not_err tn (-313) b fuel t1 with ⟨t2, ht2⟩ | ht2 <;>
      rw [h2] at ht2 <;> dsimp only at ht2
    · subst ht2
      dsimp only
      rw [h2]
      exact Or.inl ⟨t2, rfl⟩
    · subst ht2
      dsimp only
      rw [h2]
      exact Or.inr rfl
  · subst ht1
    exact Or.inr rfl

/-- Claim C6: for an executed (non-ExplainOnly) scenario whose first actual
plan is contaminated (`isCoprCacheUsed`), the executor performs exactly one
cache-invalidation cycle (one `invalidateCoprCache` call: rows moved to the
sentinel -313 and back, each direction batched until none remain) followed
by exactly one re-execution, and then stops: the whole trace is the first
execution, the invalidation statements, and the second execution.  If the
re-executed attempt's plan is again contaminated the run returns the error
"execution coprocessor cache is used" instead of retrying again; otherwise
it returns the second attempt's measurement.  (The only other possibility
is divergence of the unbounded invalidation loops within the given fuel.) -/
theorem executeQueryWithMetrics_retry (env : ExecEnv) (sc : TestScenario) (t : Table)
    (fuel : ℕ) (plan0 plan1 : ExecutionPlan)
    (hx : sc.ExplainOnly = false)
    (hp0 : parseTabularExecutionPlan (env.actualResp 0) = .ok plan0)
    (hp1 : parseTabularExecutionPlan (env.actualResp 1) = .ok plan1)
    (hc0 : isCoprCacheUsed (some plan0) = true) :
    ((invalidateCoprCache sc.TableName (bValOf env 0) fuel t).1 = .diverged ∧
      (ExecuteQueryWithMetrics env sc t fuel).1 = .diverged) ∨
    (∃ (t1 : Table) (tr : List Stmt),
      invalidateCoprCache sc.TableName (bValOf env 0) fuel t = (.ok t1, tr) ∧
      ExecuteQueryWithMetrics env sc t fuel
        = ((if isCoprCacheUsed (some plan1) then
              .err "execution coprocessor cache is used"
            else (executedCleanResult env sc 1 plan1).1),
           .execQuery sc.Query :: .explainQuery sc.Query
             :: (tr ++ [.execQuery sc.Query, .explainQuery sc.Query]))) := by
  unfold ExecuteQueryWithMetrics
  rw [executeQueryWithMetricsR]
  rw [hx]
  simp only [Bool.false_eq_true, if_false]
  rw [hp0]
  dsimp only
  rw [hc0, if_pos rfl]
  rcases hinv : invalidateCoprCache sc.TableName (bValOf env 0) fuel t with ⟨r1, tr⟩
  rcases invalidateCoprCache_not_err sc.TableName (bValOf env 0) fuel t
      with ⟨t1, ht1⟩ | ht1 <;> rw [hinv] at ht1 <;> dsimp only at ht1
  · subst ht1
    dsimp only
    rw [executeQueryWithMetricsR]
    rw [hx]
    simp only [Bool.false_eq_true, if_false]
    rw [hp1]
    dsimp only
    by_cases hcc : isCoprCacheUsed (some plan1) = true
    · rw [hcc, if_pos rfl, if_pos rfl]
      exact Or.inr ⟨t1, tr, rfl, rfl⟩
    · rw [if_neg hcc, if_neg hcc]
      exact Or.inr ⟨t1, tr, rfl, rfl⟩
  · subst ht1
    exact Or.inl ⟨rfl, rfl⟩

/-- Witness for `executeQueryWithMetrics_retry`: a concrete environment
whose actual plan reports copr_cache_hit_ratio 0.50 on both attempts; the
run ends in the cache-contamination error. -/
theorem executeQueryWithMetrics_retry_witness :
    (ExecuteQueryWithMetrics
      { staticResp := .other 0 0,
        actualResp := fun _ => .nine
          [⟨"TableReader_7", 10, 2, "root", "", "copr_cache_hit_ratio: 0.50", "",
            "N/A", "N/A"⟩],
        rowsReturned := fun _ => 2,
        firstRow := fun _ => (1, 5, "x") }
      { ID := "index_1K_5", Variant := "Index", Name := "n", Query := "SELECT 1",
        TableName := "t1K", RowCount := 1000, ExplainOnly := false }
      [5, 5] 2).1 = .err "execution coprocessor cache is used" := by
  have hc : isCoprCacheUsed (some (node9
      ⟨"TableReader_7", 10, 2, "root", "", "copr_cache_hit_ratio: 0.50", "",
        "N/A", "N/A"⟩ none)) = true := by
    rw [isCoprCacheUsed]
    simp only [node9]
    rw [if_pos (by decide)]
  have h := executeQueryWithMetrics_retry
    { staticResp := .other 0 0,
      actualResp := fun _ => .nine
        [⟨"TableReader_7", 10, 2, "root", "", "copr_cache_hit_ratio: 0.50", "",
          "N/A", "N/A"⟩],
      rowsReturned := fun _ => 2,
      firstRow := fun _ => (1, 5, "x") }
    { ID := "index_1K_5", Variant := "Index", Name := "n", Query := "SELECT 1",
      TableName := "t1K", RowCount := 1000, ExplainOnly := false }
    [5, 5] 2
    (node9 ⟨"TableReader_7", 10, 2, "root", "", "copr_cache_hit_ratio: 0.50", "",
      "N/A", "N/A"⟩ none)
    (node9 ⟨"TableReader_7", 10, 2, "root", "", "copr_cache_hit_ratio: 0.50", "",
      "N/A", "N/A"⟩ none)
    rfl rfl rfl hc
  rcases h with ⟨habs, _⟩ | ⟨t1, tr, hinv, heq⟩
  · exact absurd habs (by decide)
  · rw [heq]
    dsimp only
    rw [hc, if_pos rfl]

end Calib
